import Mathlib

/-!
Verification of the state-migration orchestrator in
`src/terraform/migrate_tf_resources.py` against its specification.

The script is embedded shallowly: pure helpers become Lean functions on
`String` and `List String`; the effectful orchestrator (`main` together with
`save_live_tfstates_to_s3`) becomes a pure function from an environment
`Env` — an oracle fixing the outcome of every external command the run may
issue — to a `RunResult`: the ordered trace of external-command / filesystem
events the run issues, plus the terminal outcome of the process.

String operations are implemented structurally over `String.data` (lists of
characters) so that every definition reduces inside the kernel; they agree
with the Python `str` methods used by the source (`startswith`, `strip`,
`in`, `+`).
-/

/-- ASCII whitespace characters recognised by Python `str.strip()`
(space, tab, newline, carriage return, vertical tab, form feed). -/
def is_space (c : Char) : Bool :=
  c = ' ' || c = '\t' || c = '\n' || c = '\r' || c = Char.ofNat 11 || c = Char.ofNat 12

/-- Python `line.strip()`: remove leading and trailing whitespace. -/
def strip (s : String) : String :=
  ⟨(((s.data.dropWhile is_space).reverse).dropWhile is_space).reverse⟩

/-- Python `s.startswith(p)`. -/
def str_starts_with (s p : String) : Bool :=
  p.data.isPrefixOf s.data

/-- Line parsing in `verify_all_resources_exist` (line 163):
`[line.strip() for line in resources_file.read_text().splitlines() if line.strip()]`. -/
def parse_addresses (ls : List String) : List String :=
  (ls.map strip).filter (fun l => !(l == ""))

/-- The `TF_EXIT_CODES` table (lines 44-48) together with the
`.get(returncode, 'Unknown exit code')` lookup of line 109. -/
def TF_EXIT_CODES (code : Nat) : String :=
  if code = 0 then "No changes detected."
  else if code = 1 then "Error occurred."
  else if code = 2 then "Changes detected!"
  else "Unknown exit code"

/-- `resource_address_exists` (lines 148-157): an address is present if it is
literally in the live set; otherwise, only a `module.`-prefixed address can
still match, via some live address extending it past a `.` separator. -/
def resource_address_exists (address : String) (existing_resources : List String) : Bool :=
  if address ∈ existing_resources then true
  else if str_starts_with address "module." = false then false
  else existing_resources.any (fun e => str_starts_with e (address ++ "."))

/-- The `missing` list computed by `verify_all_resources_exist` (lines 164-167):
the requested addresses, in order, that have no match in the live set. -/
def verify_missing (addresses existing_resources : List String) : List String :=
  addresses.filter (fun a => !(resource_address_exists a existing_resources))

/-- The `still_in_src` list of `validate_migration` (lines 191-195). -/
def still_in_src (addresses src_resources : List String) : List String :=
  addresses.filter (fun a => resource_address_exists a src_resources)

/-- The `missing_in_dest` list of `validate_migration` (lines 191-198). -/
def missing_in_dest (addresses dest_resources : List String) : List String :=
  addresses.filter (fun a => !(resource_address_exists a dest_resources))

/-- `validate_migration` succeeds (does not `sys.exit(1)`, lines 200-211) iff
both mismatch lists are empty. -/
def validate_migration_ok (src_resources dest_resources addresses : List String) : Bool :=
  (still_in_src addresses src_resources).isEmpty
    && (missing_in_dest addresses dest_resources).isEmpty

/-- Working-copy file name built by `pull_and_backup_tfstate` (line 93). -/
def live_name (module_name timestamp : String) : String :=
  "s3_" ++ module_name ++ "_" ++ timestamp ++ "_live.tfstate"

/-- Backup file name built by `pull_and_backup_tfstate` (line 96). -/
def backup_name (module_name timestamp : String) : String :=
  "s3_" ++ module_name ++ "_" ++ timestamp ++ "_backup.tfstate"

/-- Path of a file inside a module directory (`module_path / filename`). -/
def local_path (module_path filename : String) : String :=
  module_path ++ "/" ++ filename

/-- Observable external-command / filesystem events issued by a run, in order. -/
inductive Event where
  /-- `terraform version` (line 77). -/
  | runVersionCheck : Event
  /-- `aws sts get-caller-identity` (line 82). -/
  | runCredsCheck : Event
  /-- `terraform -chdir=MOD state pull` (line 86). -/
  | statePull (module_path : String) : Event
  /-- `shutil.copy` of the working copy to the backup file (line 97). -/
  | backupCopy (module_path : String) : Event
  /-- `terraform -chdir=MOD state list` against the remote store (line 139). -/
  | stateListRemote (module_path : String) : Event
  /-- `terraform state list -state FILE` against a local file (line 144). -/
  | stateListLocal (tfstate_path : String) : Event
  /-- `terraform state mv [-dry-run] ...` for one address (lines 122-135). -/
  | stateMv (address : String) (dry : Bool) : Event
  /-- `terraform -chdir=MOD state push FILE` (line 102): the only operation
  that mutates a remote store. -/
  | statePush (module_path : String) (filename : String) : Event
  /-- `terraform -chdir=MOD plan -detailed-exitcode` (line 106). -/
  | planCheck (module_path : String) : Event
  /-- `file.unlink()` of a local tfstate file (line 335). -/
  | unlink (path : String) : Event
  deriving DecidableEq

/-- Terminal outcome of the process. -/
inductive Outcome where
  /-- Reached the final `[SUCCESS]` print of line 337; process exit 0. -/
  | success : Outcome
  /-- The operator answered no at the confirmation prompt; `sys.exit(0)` (line 296). -/
  | userAborted : Outcome
  /-- A fatal `sys.exit` with nonzero code, with no remote rollback performed:
  either an explicit `sys.exit(1)` or `run_command`'s `sys.exit(e.returncode)`
  (line 72, necessarily nonzero; abstracted here as exit code 1). -/
  | aborted : Outcome
  /-- `sys.exit(1)` of line 237, after pushing the source backup back to the
  remote source store on a failed source plan check. -/
  | rolledBackSrc : Outcome
  /-- `sys.exit(1)` of line 255, after the restore pushes taken on a failed
  destination plan check. -/
  | rolledBackDual : Outcome
  deriving DecidableEq

/-- Process exit code of each outcome (nonzero failure codes abstracted to 1). -/
def Outcome.exitCode : Outcome → Nat
  | Outcome.success => 0
  | Outcome.userAborted => 0
  | Outcome.aborted => 1
  | Outcome.rolledBackSrc => 1
  | Outcome.rolledBackDual => 1

/-- A run's observable result: the event trace and the terminal outcome. -/
structure RunResult where
  trace : List Event
  outcome : Outcome
  deriving DecidableEq

/-- Oracle for everything outside the script: command-line flags, the
operator's answer at the prompt, and the result of every external command the
run may issue. Timestamps are supplied per pull (line 91 runs once per
`pull_and_backup_tfstate` call). -/
structure Env where
  /-- `--dry-run` flag. -/
  dry_run : Bool
  /-- `--keep-local` flag. -/
  keep_local : Bool
  /-- `--permanent` flag. -/
  permanent : Bool
  /-- `--planned-changes-fail` flag (help text: do NOT rollback on planned
  changes after migration); per lines 234 and 250 the rollback branch runs
  exactly when this flag is false, so a run tolerates drift iff it is true. -/
  planned_changes_fail : Bool
  /-- Whether the operator answers yes at the prompt (line 293). -/
  userConfirms : Bool
  /-- Whether `terraform version` succeeds. -/
  tfOk : Bool
  /-- Whether `aws sts get-caller-identity` succeeds. -/
  awsOk : Bool
  /-- `src_module_path` argument. -/
  srcModule : String
  /-- `dest_module_path` argument. -/
  destModule : String
  /-- Timestamp taken when pulling the source module. -/
  tsSrc : String
  /-- Timestamp taken when pulling the destination module. -/
  tsDest : String
  /-- Lines of the resources file. -/
  resourceLines : List String
  /-- Whether `terraform state list` against the remote source store succeeds. -/
  listSrcOk : Bool
  /-- Addresses returned by `terraform state list` on the remote source store. -/
  srcRemoteList : List String
  /-- Whether the source-module `terraform state pull` succeeds. -/
  pullSrcOk : Bool
  /-- Whether the destination-module `terraform state pull` succeeds. -/
  pullDestOk : Bool
  /-- Per-address success of `terraform state mv`. -/
  moveOk : String → Bool
  /-- Whether `terraform state list` on the source working copy succeeds. -/
  listSrcLocalOk : Bool
  /-- Whether `terraform state list` on the destination working copy succeeds. -/
  listDestLocalOk : Bool
  /-- Addresses in the source working copy after the moves. -/
  srcLocalAfter : List String
  /-- Addresses in the destination working copy after the moves. -/
  destLocalAfter : List String
  /-- Exit code of `terraform plan -detailed-exitcode` on the source module. -/
  planExitSrc : Nat
  /-- Exit code of `terraform plan -detailed-exitcode` on the destination module. -/
  planExitDest : Nat
  /-- Success of `terraform state push` per (module path, filename). -/
  pushOk : String → String → Bool

/-- The move loop of `main` (lines 307-310): one `terraform state mv` per
address in request order, stopping at the first failure (`run_command` exits
the process there). Returns the events issued and whether all moves succeeded. -/
def runMoves (env : Env) : List String → List Event × Bool
  | [] => ([], true)
  | a :: rest =>
    if env.moveOk a = false then ([Event.stateMv a env.dry_run], false)
    else
      let r := runMoves env rest
      (Event.stateMv a env.dry_run :: r.1, r.2)

/-- Destination half of `save_live_tfstates_to_s3` (lines 239-255): push the
destination working copy, plan-check the destination remote; on a nonzero
plan exit with `planned_changes_fail` false, the code pushes the SOURCE
backup to the SOURCE module twice (lines 252-254) — it never touches the
destination backup — then exits 1. `none` means the function returned
normally to `main`. The second restore push reuses the same success oracle
entry as the first, so a first-succeeds-second-fails interleaving is not
distinguished. -/
def push_dest_phase (env : Env) (t : List Event) : List Event × Option Outcome :=
  let destLive := live_name env.destModule env.tsDest
  let srcBackup := backup_name env.srcModule env.tsSrc
  if env.pushOk env.destModule destLive = false then
    (t ++ [Event.statePush env.destModule destLive], some Outcome.aborted)
  else if env.planExitDest = 0 then
    (t ++ [Event.statePush env.destModule destLive, Event.planCheck env.destModule], none)
  else if env.planned_changes_fail = false then
    (if env.pushOk env.srcModule srcBackup = false then
      (t ++ [Event.statePush env.destModule destLive, Event.planCheck env.destModule,
             Event.statePush env.srcModule srcBackup], some Outcome.aborted)
     else
      (t ++ [Event.statePush env.destModule destLive, Event.planCheck env.destModule,
             Event.statePush env.srcModule srcBackup, Event.statePush env.srcModule srcBackup],
       some Outcome.rolledBackDual))
  else
    (t ++ [Event.statePush env.destModule destLive, Event.planCheck env.destModule], none)

/-- `save_live_tfstates_to_s3` (lines 216-255): push the source working copy,
plan-check the source remote; on a nonzero plan exit (`validate_no_planned_changes`
raises `SystemExit` for any nonzero `terraform plan` exit code, line 115) with
`planned_changes_fail` false, push the source backup back and exit 1; with
`planned_changes_fail` true, warn and continue to the destination phase.
The file names, computed by `main` and passed in, are inlined here. -/
def save_live_tfstates_to_s3 (env : Env) : List Event × Option Outcome :=
  let srcLive := live_name env.srcModule env.tsSrc
  let srcBackup := backup_name env.srcModule env.tsSrc
  if env.pushOk env.srcModule srcLive = false then
    ([Event.statePush env.srcModule srcLive], some Outcome.aborted)
  else if env.planExitSrc = 0 then
    push_dest_phase env [Event.statePush env.srcModule srcLive, Event.planCheck env.srcModule]
  else if env.planned_changes_fail = false then
    (if env.pushOk env.srcModule srcBackup = false then
      ([Event.statePush env.srcModule srcLive, Event.planCheck env.srcModule,
        Event.statePush env.srcModule srcBackup], some Outcome.aborted)
     else
      ([Event.statePush env.srcModule srcLive, Event.planCheck env.srcModule,
        Event.statePush env.srcModule srcBackup], some Outcome.rolledBackSrc))
  else
    push_dest_phase env [Event.statePush env.srcModule srcLive, Event.planCheck env.srcModule]

/-- The four deletions of the cleanup block (lines 328-335), in source order:
source working copy, destination working copy, source backup, destination
backup. All four files exist at this point (both pulls succeeded and nothing
deletes them earlier). -/
def cleanup_files (env : Env) : List Event :=
  [Event.unlink (local_path env.srcModule (live_name env.srcModule env.tsSrc)),
   Event.unlink (local_path env.destModule (live_name env.destModule env.tsDest)),
   Event.unlink (local_path env.srcModule (backup_name env.srcModule env.tsSrc)),
   Event.unlink (local_path env.destModule (backup_name env.destModule env.tsDest))]

/-- End of `main` (lines 325-337): delete the local files unless
`--keep-local`, then print `[SUCCESS]` and exit 0. -/
def finish (env : Env) (t : List Event) : RunResult :=
  if env.keep_local = true then ⟨t, Outcome.success⟩
  else ⟨t ++ cleanup_files env, Outcome.success⟩

/-- Return of control from `save_live_tfstates_to_s3` to `main`: a `some`
outcome is a `sys.exit` inside the push phase (skipping cleanup), `none`
falls through to the cleanup block. -/
def finalize (env : Env) (t : List Event) (sv : List Event × Option Outcome) : RunResult :=
  match sv.2 with
  | some o => ⟨t ++ sv.1, o⟩
  | none => finish env (t ++ sv.1)

/-- Events of every run that reaches the move loop: preflight checks, the
remote enumeration of the verify step, then pull-and-backup of source and
destination (lines 283-305). -/
def baseTrace (env : Env) : List Event :=
  [Event.runVersionCheck, Event.runCredsCheck, Event.stateListRemote env.srcModule,
   Event.statePull env.srcModule, Event.backupCopy env.srcModule,
   Event.statePull env.destModule, Event.backupCopy env.destModule]

/-- `main` from the move loop onward (lines 307-337). -/
def afterPulls (env : Env) : RunResult :=
  if (runMoves env (parse_addresses env.resourceLines)).2 = false then
    ⟨baseTrace env ++ (runMoves env (parse_addresses env.resourceLines)).1, Outcome.aborted⟩
  else if env.dry_run = true then
    finish env (baseTrace env ++ (runMoves env (parse_addresses env.resourceLines)).1)
  else if env.listSrcLocalOk = false then
    ⟨baseTrace env ++ (runMoves env (parse_addresses env.resourceLines)).1 ++
      [Event.stateListLocal (local_path env.srcModule (live_name env.srcModule env.tsSrc))],
     Outcome.aborted⟩
  else if env.listDestLocalOk = false then
    ⟨baseTrace env ++ (runMoves env (parse_addresses env.resourceLines)).1 ++
      [Event.stateListLocal (local_path env.srcModule (live_name env.srcModule env.tsSrc)),
       Event.stateListLocal (local_path env.destModule (live_name env.destModule env.tsDest))],
     Outcome.aborted⟩
  else if validate_migration_ok env.srcLocalAfter env.destLocalAfter
      (parse_addresses env.resourceLines) = false then
    ⟨baseTrace env ++ (runMoves env (parse_addresses env.resourceLines)).1 ++
      [Event.stateListLocal (local_path env.srcModule (live_name env.srcModule env.tsSrc)),
       Event.stateListLocal (local_path env.destModule (live_name env.destModule env.tsDest))],
     Outcome.aborted⟩
  else if env.permanent = true then
    finalize env
      (baseTrace env ++ (runMoves env (parse_addresses env.resourceLines)).1 ++
        [Event.stateListLocal (local_path env.srcModule (live_name env.srcModule env.tsSrc)),
         Event.stateListLocal (local_path env.destModule (live_name env.destModule env.tsDest))])
      (save_live_tfstates_to_s3 env)
  else
    finish env
      (baseTrace env ++ (runMoves env (parse_addresses env.resourceLines)).1 ++
        [Event.stateListLocal (local_path env.srcModule (live_name env.srcModule env.tsSrc)),
         Event.stateListLocal (local_path env.destModule (live_name env.destModule env.tsDest))])

/-- `main` (lines 258-337), from after argument parsing: preflight checks,
operator confirmation, the existence verification against the remote source
store, pull-and-backup of both modules, then `afterPulls`. Each failing
external command makes `run_command` exit the process (modelled as
`Outcome.aborted` with the trace accumulated so far). -/
def mainRun (env : Env) : RunResult :=
  if env.tfOk = false then
    ⟨[Event.runVersionCheck], Outcome.aborted⟩
  else if env.awsOk = false then
    ⟨[Event.runVersionCheck, Event.runCredsCheck], Outcome.aborted⟩
  else if env.userConfirms = false then
    ⟨[Event.runVersionCheck, Event.runCredsCheck], Outcome.userAborted⟩
  else if env.listSrcOk = false then
    ⟨[Event.runVersionCheck, Event.runCredsCheck, Event.stateListRemote env.srcModule],
     Outcome.aborted⟩
  else if (verify_missing (parse_addresses env.resourceLines) env.srcRemoteList).isEmpty = false then
    ⟨[Event.runVersionCheck, Event.runCredsCheck, Event.stateListRemote env.srcModule],
     Outcome.aborted⟩
  else if env.pullSrcOk = false then
    ⟨[Event.runVersionCheck, Event.runCredsCheck, Event.stateListRemote env.srcModule,
      Event.statePull env.srcModule], Outcome.aborted⟩
  else if env.pullDestOk = false then
    ⟨[Event.runVersionCheck, Event.runCredsCheck, Event.stateListRemote env.srcModule,
      Event.statePull env.srcModule, Event.backupCopy env.srcModule,
      Event.statePull env.destModule], Outcome.aborted⟩
  else
    afterPulls env

/-! ## Helper lemmas about the orchestrator model -/

theorem finish_outcome (env : Env) (t : List Event) : (finish env t).outcome = Outcome.success := by
  unfold finish
  split_ifs <;> rfl

theorem finish_trace_mem (env : Env) (t : List Event) (e : Event) (he : e ∈ t) :
    e ∈ (finish env t).trace := by
  unfold finish
  split_ifs <;> simp [he]

theorem finish_unlink (env : Env) (t : List Event) (f : String)
    (hne : Event.unlink f ∉ t) (h : Event.unlink f ∈ (finish env t).trace) :
    env.keep_local = false := by
  unfold finish at h
  split_ifs at h with hk
  · exact absurd h hne
  · simpa using hk

theorem finalize_trace_mem (env : Env) (t : List Event) (sv : List Event × Option Outcome)
    (e : Event) (he : e ∈ t ++ sv.1) : e ∈ (finalize env t sv).trace := by
  unfold finalize
  rcases h : sv.2 with _ | o <;> simp only [h]
  · exact finish_trace_mem _ _ _ he
  · simpa using he

theorem finalize_unlink (env : Env) (t : List Event) (sv : List Event × Option Outcome) (f : String)
    (h1 : Event.unlink f ∉ t) (h2 : Event.unlink f ∉ sv.1)
    (h : Event.unlink f ∈ (finalize env t sv).trace) :
    (finalize env t sv).outcome = Outcome.success ∧ env.keep_local = false := by
  unfold finalize at h ⊢
  rcases hs : sv.2 with _ | o <;> simp only [hs] at h ⊢
  · refine ⟨finish_outcome _ _, finish_unlink _ _ _ ?_ h⟩
    simp [h1, h2]
  · simp only [List.mem_append] at h
    rcases h with h | h
    · exact absurd h h1
    · exact absurd h h2

/-- Recogniser for move events. -/
def is_move : Event → Bool
  | Event.stateMv _ _ => true
  | _ => false

theorem runMoves_moves (env : Env) (addrs : List String) :
    ∀ e ∈ (runMoves env addrs).1, is_move e = true := by
  induction addrs with
  | nil => simp [runMoves]
  | cons a rest ih =>
    intro e he
    rw [runMoves] at he
    split_ifs at he
    · simp only [List.mem_singleton] at he
      subst he; rfl
    · simp only [List.mem_cons] at he
      rcases he with he | he
      · subst he; rfl
      · exact ih e he

theorem runMoves_ok (env : Env) (addrs : List String)
    (h : ∀ a ∈ addrs, env.moveOk a = true) : (runMoves env addrs).2 = true := by
  induction addrs with
  | nil => rfl
  | cons a rest ih =>
    rw [runMoves]
    split_ifs with hc
    · rw [h a (by simp)] at hc; cases hc
    · exact ih (fun x hx => h x (by simp [hx]))

theorem statePush_notin_runMoves (env : Env) (addrs : List String) (m f : String) :
    Event.statePush m f ∉ (runMoves env addrs).1 := by
  intro h
  simpa [is_move] using runMoves_moves env addrs _ h

theorem planCheck_notin_runMoves (env : Env) (addrs : List String) (m : String) :
    Event.planCheck m ∉ (runMoves env addrs).1 := by
  intro h
  simpa [is_move] using runMoves_moves env addrs _ h

theorem stateListLocal_notin_runMoves (env : Env) (addrs : List String) (p : String) :
    Event.stateListLocal p ∉ (runMoves env addrs).1 := by
  intro h
  simpa [is_move] using runMoves_moves env addrs _ h

theorem unlink_notin_runMoves (env : Env) (addrs : List String) (f : String) :
    Event.unlink f ∉ (runMoves env addrs).1 := by
  intro h
  simpa [is_move] using runMoves_moves env addrs _ h

/-- Recogniser for the events `save_live_tfstates_to_s3` may issue. -/
def push_or_plan : Event → Bool
  | Event.statePush _ _ => true
  | Event.planCheck _ => true
  | _ => false

theorem push_dest_phase_sound (env : Env) (t : List Event)
    (ht : ∀ x ∈ t, push_or_plan x = true) :
    ∀ x ∈ (push_dest_phase env t).1, push_or_plan x = true := by
  intro x hx
  simp only [push_dest_phase] at hx
  split_ifs at hx <;>
    simp only [List.mem_append, List.mem_cons, List.not_mem_nil, or_false] at hx <;>
    rcases hx with hx | hx <;>
    first
      | exact ht x hx
      | (rcases hx with hx | hx | hx | hx <;> subst hx <;> rfl)
      | (rcases hx with hx | hx | hx <;> subst hx <;> rfl)
      | (rcases hx with hx | hx <;> subst hx <;> rfl)
      | (subst hx; rfl)

theorem save_live_push_or_plan (env : Env) :
    ∀ x ∈ (save_live_tfstates_to_s3 env).1, push_or_plan x = true := by
  have hbase : ∀ x ∈ [Event.statePush env.srcModule (live_name env.srcModule env.tsSrc),
      Event.planCheck env.srcModule], push_or_plan x = true := by
    intro y hy
    simp only [List.mem_cons, List.not_mem_nil, or_false] at hy
    rcases hy with hy | hy <;> subst hy <;> rfl
  intro x hx
  simp only [save_live_tfstates_to_s3] at hx
  split_ifs at hx <;>
    first
      | exact push_dest_phase_sound env _ hbase x hx
      | (simp only [List.mem_cons, List.not_mem_nil, or_false] at hx
         rcases hx with hx | hx | hx <;> subst hx <;> rfl)
      | (simp only [List.mem_singleton] at hx; subst hx; rfl)

theorem unlink_notin_save_live (env : Env) (f : String) :
    Event.unlink f ∉ (save_live_tfstates_to_s3 env).1 := by
  intro h
  simpa [push_or_plan] using save_live_push_or_plan env _ h

theorem push_dest_phase_destLive_mem (env : Env) (t : List Event) :
    Event.statePush env.destModule (live_name env.destModule env.tsDest)
      ∈ (push_dest_phase env t).1 := by
  simp only [push_dest_phase]
  split_ifs <;> simp

/-! ## The existence predicate and the verify / validate steps (claims C4, C9, C10) -/

theorem resource_address_exists_group (a : String) (l : List String)
    (h : str_starts_with a "module." = true) :
    resource_address_exists a l = true ↔
      a ∈ l ∨ ∃ e ∈ l, str_starts_with e (a ++ ".") = true := by
  unfold resource_address_exists
  rcases Decidable.em (a ∈ l) with hm | hm <;> simp [hm, h, List.any_eq_true]

theorem validate_migration_ok_iff (src_resources dest_resources addresses : List String) :
    validate_migration_ok src_resources dest_resources addresses = true ↔
      ∀ a ∈ addresses, resource_address_exists a dest_resources = true ∧
        resource_address_exists a src_resources = false := by
  unfold validate_migration_ok still_in_src missing_in_dest
  rw [Bool.and_eq_true, List.isEmpty_iff, List.isEmpty_iff, List.filter_eq_nil_iff,
    List.filter_eq_nil_iff]
  constructor
  · rintro ⟨hs, hd⟩ a ha
    refine ⟨?_, ?_⟩
    · have := hd a ha
      simpa using this
    · have := hs a ha
      simpa using this
  · intro hall
    refine ⟨fun a ha => ?_, fun a ha => ?_⟩
    · simp [(hall a ha).2]
    · simp [(hall a ha).1]

/-- Claim C9: for a requested address that does not start with the group
marker `module.`, `resource_address_exists` returns true exactly when the
address is literally in the live set; a live address merely extending it is
not a match. -/
theorem C9_non_group_literal_only (a : String) (live : List String)
    (h : str_starts_with a "module." = false) :
    resource_address_exists a live = true ↔ a ∈ live := by
  unfold resource_address_exists
  rcases Decidable.em (a ∈ live) with hm | hm <;> simp [hm, h]

theorem C9_non_group_literal_only_witness :
    str_starts_with "aws_instance.web" "module." = false ∧
      (resource_address_exists "aws_instance.web" ["aws_instance.web.extra"] = true ↔
        "aws_instance.web" ∈ ["aws_instance.web.extra"]) :=
  ⟨by decide, C9_non_group_literal_only "aws_instance.web" ["aws_instance.web.extra"] (by decide)⟩

/-- Claim C10: in the post-move validation, an address — in particular a group
address — is classified as still in the source iff ANY source address matches
it (literally or via the `.`-separated group extension), and as present in the
destination iff ANY destination address matches it; so validating a single
group address succeeds exactly when at least one matching address exists in
the destination set and none matches in the source set, without requiring
every individual child to have moved. -/
theorem C10_group_validation_any_match (a : String) (src_resources dest_resources : List String)
    (h : str_starts_with a "module." = true) :
    (a ∈ still_in_src [a] src_resources ↔
      (a ∈ src_resources ∨ ∃ e ∈ src_resources, str_starts_with e (a ++ ".") = true)) ∧
    (a ∉ missing_in_dest [a] dest_resources ↔
      (a ∈ dest_resources ∨ ∃ e ∈ dest_resources, str_starts_with e (a ++ ".") = true)) ∧
    (validate_migration_ok src_resources dest_resources [a] = true ↔
      ((a ∈ dest_resources ∨ ∃ e ∈ dest_resources, str_starts_with e (a ++ ".") = true) ∧
       ¬(a ∈ src_resources ∨ ∃ e ∈ src_resources, str_starts_with e (a ++ ".") = true))) := by
  rw [← resource_address_exists_group a src_resources h,
    ← resource_address_exists_group a dest_resources h]
  cases hs : resource_address_exists a src_resources <;>
    cases hd : resource_address_exists a dest_resources <;>
      simp [still_in_src, missing_in_dest, validate_migration_ok, hs, hd]

theorem C10_group_validation_any_match_witness :
    str_starts_with "module.vpc" "module." = true ∧
      (validate_migration_ok [] ["module.vpc.aws_subnet.a"] ["module.vpc"] = true ↔
        (("module.vpc" ∈ ["module.vpc.aws_subnet.a"] ∨
           ∃ e ∈ ["module.vpc.aws_subnet.a"],
             str_starts_with e ("module.vpc" ++ ".") = true) ∧
         ¬("module.vpc" ∈ ([] : List String) ∨
           ∃ e ∈ ([] : List String), str_starts_with e ("module.vpc" ++ ".") = true))) :=
  ⟨by decide,
   (C10_group_validation_any_match "module.vpc" [] ["module.vpc.aws_subnet.a"] (by decide)).2.2⟩

/-- Claim C4, counterexample: with a duplicated requested address that is
absent from the live set, the missing list contains it twice, not "exactly
once" — `verify_all_resources_exist` appends one entry per occurrence. -/
theorem C4_counterexample :
    resource_address_exists "aws_instance.web" [] = false ∧
      (verify_missing ["aws_instance.web", "aws_instance.web"] []).count "aws_instance.web" = 2 := by
  decide

/-- Claim C4, amended: the missing list is empty exactly when every requested
address is present (literally, or for a `module.` group address via some live
address extending it past the separator); an absent requested address appears
in the missing list once per occurrence in the request list — hence exactly
once when the request list lists it once — and a present address never
appears. -/
theorem C4_missing_characterisation (addrs live : List String) :
    (verify_missing addrs live = [] ↔ ∀ a ∈ addrs, resource_address_exists a live = true) ∧
    (∀ a, resource_address_exists a live = false →
      (verify_missing addrs live).count a = addrs.count a) ∧
    (∀ a, resource_address_exists a live = true → (verify_missing addrs live).count a = 0) := by
  refine ⟨?_, ?_, ?_⟩
  · simp [verify_missing, List.filter_eq_nil_iff]
  · intro a ha
    rw [verify_missing, List.count_filter]
    simp [ha]
  · intro a ha
    rw [List.count_eq_zero]
    simp [verify_missing, List.mem_filter, ha]

theorem C4_missing_characterisation_witness :
    resource_address_exists "module.vpc" ["aws_instance.web"] = false ∧
      (verify_missing ["aws_instance.web", "module.vpc"] ["aws_instance.web"]).count "module.vpc"
        = (["aws_instance.web", "module.vpc"]).count "module.vpc" :=
  ⟨by decide,
   (C4_missing_characterisation ["aws_instance.web", "module.vpc"] ["aws_instance.web"]).2.1
     "module.vpc" (by decide)⟩

/-! ## Reachability hypotheses and concrete environments -/

/-- Hypotheses under which a non-dry run reaches the post-move validation step
of line 313: preflight checks pass, the operator confirms, the source
enumeration succeeds and finds every requested address, both pulls succeed,
every move succeeds, and both local re-enumerations succeed. -/
abbrev reachesValidation (env : Env) : Prop :=
  env.tfOk = true ∧ env.awsOk = true ∧ env.userConfirms = true ∧ env.listSrcOk = true ∧
  verify_missing (parse_addresses env.resourceLines) env.srcRemoteList = [] ∧
  env.pullSrcOk = true ∧ env.pullDestOk = true ∧
  (∀ a ∈ parse_addresses env.resourceLines, env.moveOk a = true) ∧
  env.dry_run = false ∧ env.listSrcLocalOk = true ∧ env.listDestLocalOk = true

/-- Hypotheses under which a permanent run additionally reaches the plan-drift
check on the remote source store (line 230): local validation passed, the
permanent flag is set, and the push of the source working copy succeeded. -/
abbrev reachesSrcPlanCheck (env : Env) : Prop :=
  reachesValidation env ∧
  validate_migration_ok env.srcLocalAfter env.destLocalAfter
    (parse_addresses env.resourceLines) = true ∧
  env.permanent = true ∧
  env.pushOk env.srcModule (live_name env.srcModule env.tsSrc) = true

/-- A fully successful permanent migration of the group address `module.vpc`
from module `src` to module `dst`: every external command succeeds and both
plan checks are clean. -/
def envBase : Env :=
  { dry_run := false, keep_local := false, permanent := true, planned_changes_fail := false,
    userConfirms := true, tfOk := true, awsOk := true,
    srcModule := "src", destModule := "dst", tsSrc := "T1", tsDest := "T2",
    resourceLines := ["module.vpc"],
    listSrcOk := true, srcRemoteList := ["module.vpc.aws_subnet.a"],
    pullSrcOk := true, pullDestOk := true, moveOk := fun _ => true,
    listSrcLocalOk := true, listDestLocalOk := true,
    srcLocalAfter := [], destLocalAfter := ["module.vpc.aws_subnet.a"],
    planExitSrc := 0, planExitDest := 0, pushOk := fun _ _ => true }

theorem envBase_success : (mainRun envBase).outcome = Outcome.success := by decide

/-- Claim C7: if the pre-flight existence check finds a non-empty missing
list, the run exits fatally right there (line 173): the whole trace is the
preflight checks plus the single read-only remote enumeration, so no pull, no
backup copy, no move and no push has been issued. -/
theorem C7_missing_aborts_before_mutation (env : Env)
    (h1 : env.tfOk = true) (h2 : env.awsOk = true) (h3 : env.userConfirms = true)
    (h4 : env.listSrcOk = true)
    (h5 : verify_missing (parse_addresses env.resourceLines) env.srcRemoteList ≠ []) :
    mainRun env = ⟨[Event.runVersionCheck, Event.runCredsCheck,
                    Event.stateListRemote env.srcModule], Outcome.aborted⟩ ∧
    (∀ m, Event.statePull m ∉ (mainRun env).trace) ∧
    (∀ m, Event.backupCopy m ∉ (mainRun env).trace) ∧
    (∀ a d, Event.stateMv a d ∉ (mainRun env).trace) ∧
    (∀ m f, Event.statePush m f ∉ (mainRun env).trace) := by
  have hm : (verify_missing (parse_addresses env.resourceLines) env.srcRemoteList).isEmpty
      = false := by
    cases hev : (verify_missing (parse_addresses env.resourceLines) env.srcRemoteList).isEmpty
    · rfl
    · exact absurd (List.isEmpty_iff.mp hev) h5
  have hrun : mainRun env = ⟨[Event.runVersionCheck, Event.runCredsCheck,
      Event.stateListRemote env.srcModule], Outcome.aborted⟩ := by
    simp [mainRun, h1, h2, h3, h4, hm]
  refine ⟨hrun, ?_, ?_, ?_, ?_⟩ <;> simp [hrun]

/-- Same run as `envBase` except that the remote source store is empty, so the
requested address `module.vpc` is missing. -/
def envMissing : Env := { envBase with srcRemoteList := [] }

theorem C7_missing_aborts_before_mutation_witness :
    (mainRun envMissing).outcome = Outcome.aborted ∧
      (∀ m f, Event.statePush m f ∉ (mainRun envMissing).trace) ∧
      (∀ m, Event.statePull m ∉ (mainRun envMissing).trace) := by
  have h := C7_missing_aborts_before_mutation envMissing (by decide) (by decide) (by decide)
    (by decide) (by decide)
  exact ⟨by rw [h.1], h.2.2.2.2, h.2.1⟩

set_option maxHeartbeats 1000000 in
theorem mainRun_dry_trace_sub (env : Env) (h : env.dry_run = true) :
    ∀ e ∈ (mainRun env).trace,
      e ∈ baseTrace env ++ (runMoves env (parse_addresses env.resourceLines)).1
          ++ cleanup_files env := by
  intro e he
  simp only [mainRun, afterPulls, finish] at he
  split_ifs at he <;>
    first
      | exact absurd h (by assumption)
      | (simp only [baseTrace, List.mem_append, List.mem_cons, List.not_mem_nil,
           or_false] at he ⊢
         tauto)

/-- Claim C6: with the dry-run flag set, no run — whatever the other flags and
whatever any command returns — ever issues a push or a plan check, and never
re-enumerates a local working copy (the post-move validation is skipped); if
the steps up to the move loop succeed, the run completes successfully having
mutated no remote store. -/
theorem C6_dry_run_never_pushes (env : Env) (h : env.dry_run = true) :
    (∀ m f, Event.statePush m f ∉ (mainRun env).trace) ∧
    (∀ m, Event.planCheck m ∉ (mainRun env).trace) ∧
    (∀ p, Event.stateListLocal p ∉ (mainRun env).trace) ∧
    (env.tfOk = true → env.awsOk = true → env.userConfirms = true → env.listSrcOk = true →
      verify_missing (parse_addresses env.resourceLines) env.srcRemoteList = [] →
      env.pullSrcOk = true → env.pullDestOk = true →
      (∀ a ∈ parse_addresses env.resourceLines, env.moveOk a = true) →
      (mainRun env).outcome = Outcome.success) := by
  refine ⟨?_, ?_, ?_, ?_⟩
  · intro m f hmem
    have hsub := mainRun_dry_trace_sub env h _ hmem
    simp [baseTrace, cleanup_files, statePush_notin_runMoves] at hsub
  · intro m hmem
    have hsub := mainRun_dry_trace_sub env h _ hmem
    simp [baseTrace, cleanup_files, planCheck_notin_runMoves] at hsub
  · intro p hmem
    have hsub := mainRun_dry_trace_sub env h _ hmem
    simp [baseTrace, cleanup_files, stateListLocal_notin_runMoves] at hsub
  · intro h1 h2 h3 h4 hmiss h6 h7 h8
    simp [mainRun, afterPulls, h, h1, h2, h3, h4, hmiss, h6, h7,
      runMoves_ok env _ h8, finish_outcome]

/-- Same run as `envBase` but with the dry-run flag set (the permanent flag is
even left on: the dry-run branch takes precedence, line 312). -/
def envDry : Env := { envBase with dry_run := true }

theorem C6_dry_run_never_pushes_witness :
    (∀ m f, Event.statePush m f ∉ (mainRun envDry).trace) ∧
      (mainRun envDry).outcome = Outcome.success :=
  ⟨(C6_dry_run_never_pushes envDry (by decide)).1,
   (C6_dry_run_never_pushes envDry (by decide)).2.2.2 (by decide) (by decide) (by decide)
     (by decide) (by decide) (by decide) (by decide) (by decide)⟩

/-- Case analysis of any run's result: every run either aborts with an
unlink-free trace, stops at the confirmation prompt, ends in the cleanup
branch over an unlink-free trace, or ends inside the push phase over an
unlink-free trace. -/
def MainCase (env : Env) (r : RunResult) : Prop :=
  (r.outcome = Outcome.aborted ∧ ∀ f, Event.unlink f ∉ r.trace) ∨
  r = ⟨[Event.runVersionCheck, Event.runCredsCheck], Outcome.userAborted⟩ ∨
  (∃ t, (∀ f, Event.unlink f ∉ t) ∧ r = finish env t) ∨
  (∃ t, (∀ f, Event.unlink f ∉ t) ∧ r = finalize env t (save_live_tfstates_to_s3 env))

set_option maxHeartbeats 1000000 in
theorem mainRun_cases (env : Env) : MainCase env (mainRun env) := by
  unfold mainRun
  repeat' split
  all_goals try (unfold afterPulls; repeat' split)
  all_goals unfold MainCase
  all_goals
    first
      | exact Or.inl ⟨rfl, by simp [baseTrace, unlink_notin_runMoves]⟩
      | exact Or.inr (Or.inl rfl)
      | exact Or.inr (Or.inr (Or.inl ⟨_, by simp [baseTrace, unlink_notin_runMoves], rfl⟩))
      | exact Or.inr (Or.inr (Or.inr ⟨_, by simp [baseTrace, unlink_notin_runMoves], rfl⟩))

/-- Claim C8: a local working-copy or backup file is deleted only by a run
that reaches full successful completion without `--keep-local`; every abort —
at any step, with any flags — leaves all local files in place (`sys.exit`
fires before the cleanup block of lines 325-335). -/
theorem C8_unlink_only_on_success (env : Env) (f : String)
    (h : Event.unlink f ∈ (mainRun env).trace) :
    (mainRun env).outcome = Outcome.success ∧ env.keep_local = false := by
  have hc := mainRun_cases env
  unfold MainCase at hc
  rcases hc with ⟨ho, hn⟩ | he | ⟨t, hn, he⟩ | ⟨t, hn, he⟩
  · exact absurd h (hn f)
  · rw [he] at h
    simp at h
  · rw [he] at h ⊢
    exact ⟨finish_outcome _ _, finish_unlink _ _ _ (hn f) h⟩
  · rw [he] at h ⊢
    exact finalize_unlink _ _ _ _ (hn f) (unlink_notin_save_live env f) h

theorem C8_unlink_only_on_success_witness :
    (mainRun envBase).outcome = Outcome.success ∧ envBase.keep_local = false :=
  C8_unlink_only_on_success envBase (local_path "src" (live_name "src" "T1")) (by decide)

/-- Trace of a non-dry run at the moment the post-move validation decision is
taken: base events, the moves, and the two local re-enumerations of
`validate_migration` (lines 188-189). -/
def validationTrace (env : Env) : List Event :=
  baseTrace env ++ (runMoves env (parse_addresses env.resourceLines)).1 ++
    [Event.stateListLocal (local_path env.srcModule (live_name env.srcModule env.tsSrc)),
     Event.stateListLocal (local_path env.destModule (live_name env.destModule env.tsDest))]

theorem mainRun_reachesValidation (env : Env) (h : reachesValidation env) :
    mainRun env =
      if validate_migration_ok env.srcLocalAfter env.destLocalAfter
          (parse_addresses env.resourceLines) = false then
        ⟨validationTrace env, Outcome.aborted⟩
      else if env.permanent = true then
        finalize env (validationTrace env) (save_live_tfstates_to_s3 env)
      else finish env (validationTrace env) := by
  obtain ⟨h1, h2, h3, h4, h5, h6, h7, h8, h9, h10, h11⟩ := h
  simp [mainRun, afterPulls, validationTrace, h1, h2, h3, h4, h5, h6, h7, h9, h10, h11,
    runMoves_ok env _ h8]

/-- Claim C5: in every non-dry run that reaches it, the post-move validation
step re-enumerates both local working copies, succeeds exactly when every
requested address is present (by the shared matching predicate of
`resource_address_exists`) in the destination working copy's address set and
absent from the source working copy's address set, and any mismatch ends the
run in a fatal abort. -/
theorem C5_post_move_validation (env : Env) (h : reachesValidation env) :
    (validate_migration_ok env.srcLocalAfter env.destLocalAfter
        (parse_addresses env.resourceLines) = true ↔
      ∀ a ∈ parse_addresses env.resourceLines,
        resource_address_exists a env.destLocalAfter = true ∧
        resource_address_exists a env.srcLocalAfter = false) ∧
    Event.stateListLocal (local_path env.srcModule (live_name env.srcModule env.tsSrc))
      ∈ (mainRun env).trace ∧
    Event.stateListLocal (local_path env.destModule (live_name env.destModule env.tsDest))
      ∈ (mainRun env).trace ∧
    (validate_migration_ok env.srcLocalAfter env.destLocalAfter
        (parse_addresses env.resourceLines) = false →
      (mainRun env).outcome = Outcome.aborted) := by
  have hm := mainRun_reachesValidation env h
  refine ⟨validate_migration_ok_iff _ _ _, ?_, ?_, ?_⟩
  · rw [hm]
    split_ifs
    · simp [validationTrace]
    · exact finalize_trace_mem _ _ _ _ (by simp [validationTrace])
    · exact finish_trace_mem _ _ _ (by simp [validationTrace])
  · rw [hm]
    split_ifs
    · simp [validationTrace]
    · exact finalize_trace_mem _ _ _ _ (by simp [validationTrace])
    · exact finish_trace_mem _ _ _ (by simp [validationTrace])
  · intro hv
    rw [hm, if_pos hv]

theorem C5_post_move_validation_witness :
    Event.stateListLocal
        (local_path envBase.srcModule (live_name envBase.srcModule envBase.tsSrc))
      ∈ (mainRun envBase).trace ∧
      (validate_migration_ok envBase.srcLocalAfter envBase.destLocalAfter
          (parse_addresses envBase.resourceLines) = true ↔
        ∀ a ∈ parse_addresses envBase.resourceLines,
          resource_address_exists a envBase.destLocalAfter = true ∧
          resource_address_exists a envBase.srcLocalAfter = false) :=
  ⟨(C5_post_move_validation envBase (by decide)).2.1,
   (C5_post_move_validation envBase (by decide)).1⟩

/-- Claim C1: in a permanent run reaching the post-push drift check on the
remote source store, if the check exits 2 (`ChangesDetected`) then under the
strict configuration (`planned_changes_fail` false, the code's rollback
branch, lines 234-237) the run pushes the source backup back to the remote
source store and terminates rolled back with a nonzero exit code; under the
drift-tolerant configuration it proceeds, going on to push the destination
working copy. -/
theorem C1_strict_rollback_tolerant_proceeds (env : Env)
    (h : reachesSrcPlanCheck env) (hdrift : env.planExitSrc = 2) :
    (env.planned_changes_fail = false →
      env.pushOk env.srcModule (backup_name env.srcModule env.tsSrc) = true →
      (mainRun env).outcome = Outcome.rolledBackSrc ∧
      Outcome.exitCode (mainRun env).outcome ≠ 0 ∧
      Event.statePush env.srcModule (backup_name env.srcModule env.tsSrc)
        ∈ (mainRun env).trace) ∧
    (env.planned_changes_fail = true →
      Event.statePush env.destModule (live_name env.destModule env.tsDest)
        ∈ (mainRun env).trace) := by
  obtain ⟨hr, hv, hp, hpush⟩ := h
  have hm := mainRun_reachesValidation env hr
  rw [hm, if_neg (by simp [hv]), if_pos hp]
  constructor
  · intro hf hb
    have hsv : save_live_tfstates_to_s3 env =
        ([Event.statePush env.srcModule (live_name env.srcModule env.tsSrc),
          Event.planCheck env.srcModule,
          Event.statePush env.srcModule (backup_name env.srcModule env.tsSrc)],
         some Outcome.rolledBackSrc) := by
      simp [save_live_tfstates_to_s3, hpush, hdrift, hf, hb]
    rw [hsv]
    refine ⟨by simp [finalize], by simp [finalize, Outcome.exitCode], by simp [finalize]⟩
  · intro hf
    have hsv : save_live_tfstates_to_s3 env =
        push_dest_phase env [Event.statePush env.srcModule (live_name env.srcModule env.tsSrc),
          Event.planCheck env.srcModule] := by
      simp [save_live_tfstates_to_s3, hpush, hdrift, hf]
    rw [hsv]
    exact finalize_trace_mem _ _ _ _
      (List.mem_append.mpr (Or.inr (push_dest_phase_destLive_mem env _)))

/-- Strict permanent run of `envBase` whose source plan check exits 2. -/
def envC1strict : Env := { envBase with planExitSrc := 2 }

/-- Drift-tolerant permanent run of `envBase` whose source plan check exits 2. -/
def envC1tol : Env := { envBase with planExitSrc := 2, planned_changes_fail := true }

theorem C1_strict_rollback_tolerant_proceeds_witness :
    (mainRun envC1strict).outcome = Outcome.rolledBackSrc ∧
      Event.statePush envC1tol.destModule (live_name envC1tol.destModule envC1tol.tsDest)
        ∈ (mainRun envC1tol).trace :=
  ⟨((C1_strict_rollback_tolerant_proceeds envC1strict (by decide) (by decide)).1
      (by decide) (by decide)).1,
   (C1_strict_rollback_tolerant_proceeds envC1tol (by decide) (by decide)).2 (by decide)⟩

/-- Drift-tolerant permanent run of `envBase` whose source plan check exits 1. -/
def envC3cex : Env := { envBase with planExitSrc := 1, planned_changes_fail := true }

/-- Claim C3, counterexample: a `Failed` plan check is NOT always fatal. In
this run the source plan check exits 1 (`Error occurred.`) yet, because
`planned_changes_fail` is set, `save_live_tfstates_to_s3` only warns (the
`SystemExit` of `validate_no_planned_changes` is caught and the rollback
branch of line 234 is skipped) and the run completes successfully. -/
theorem C3_counterexample :
    envC3cex.planExitSrc = 1 ∧
      Event.planCheck envC3cex.srcModule ∈ (mainRun envC3cex).trace ∧
      (mainRun envC3cex).outcome = Outcome.success := by decide

/-- Claim C3, amended: the exit-code table classifies 0 as no changes, 2 as
changes detected, 1 as error and anything else as unknown; but `Failed` and
`ChangesDetected` are handled identically by the orchestrator — any nonzero
plan exit code is tolerated with a warning when the run is configured to
tolerate drift, and triggers rollback-and-abort exactly when the run is
strict about drift. -/
theorem C3_exit_code_classification (env : Env)
    (h : reachesSrcPlanCheck env) (hnz : env.planExitSrc ≠ 0) :
    (TF_EXIT_CODES 0 = "No changes detected." ∧ TF_EXIT_CODES 2 = "Changes detected!" ∧
     TF_EXIT_CODES 1 = "Error occurred." ∧
     ∀ c, c ≠ 0 → c ≠ 1 → c ≠ 2 → TF_EXIT_CODES c = "Unknown exit code") ∧
    (env.planned_changes_fail = true →
      Event.statePush env.destModule (live_name env.destModule env.tsDest)
        ∈ (mainRun env).trace) ∧
    (env.planned_changes_fail = false →
      env.pushOk env.srcModule (backup_name env.srcModule env.tsSrc) = true →
      (mainRun env).outcome = Outcome.rolledBackSrc ∧
      Outcome.exitCode (mainRun env).outcome = 1) := by
  obtain ⟨hr, hv, hp, hpush⟩ := h
  have hm := mainRun_reachesValidation env hr
  refine ⟨⟨rfl, rfl, rfl, ?_⟩, ?_, ?_⟩
  · intro c hc0 hc1 hc2
    simp [TF_EXIT_CODES, hc0, hc1, hc2]
  · intro hf
    rw [hm, if_neg (by simp [hv]), if_pos hp]
    have hsv : save_live_tfstates_to_s3 env =
        push_dest_phase env [Event.statePush env.srcModule (live_name env.srcModule env.tsSrc),
          Event.planCheck env.srcModule] := by
      simp [save_live_tfstates_to_s3, hpush, hnz, hf]
    rw [hsv]
    exact finalize_trace_mem _ _ _ _
      (List.mem_append.mpr (Or.inr (push_dest_phase_destLive_mem env _)))
  · intro hf hb
    rw [hm, if_neg (by simp [hv]), if_pos hp]
    have hsv : save_live_tfstates_to_s3 env =
        ([Event.statePush env.srcModule (live_name env.srcModule env.tsSrc),
          Event.planCheck env.srcModule,
          Event.statePush env.srcModule (backup_name env.srcModule env.tsSrc)],
         some Outcome.rolledBackSrc) := by
      simp [save_live_tfstates_to_s3, hpush, hnz, hf, hb]
    rw [hsv]
    exact ⟨by simp [finalize], by simp [finalize, Outcome.exitCode]⟩

/-- Strict permanent run of `envBase` whose source plan check exits 1. -/
def envC3roll : Env := { envBase with planExitSrc := 1 }

theorem C3_exit_code_classification_witness :
    (mainRun envC3roll).outcome = Outcome.rolledBackSrc ∧
      TF_EXIT_CODES 1 = "Error occurred." :=
  ⟨((C3_exit_code_classification envC3roll (by decide) (by decide)).2.2
      (by decide) (by decide)).1,
   (C3_exit_code_classification envC3roll (by decide) (by decide)).1.2.2.1⟩

/-- Permanent strict run of `envBase` in which the source plan check is clean
but the destination plan check exits 2. -/
def envC2 : Env := { envBase with planExitDest := 2 }

/-- Claim C2: on drift detected after the destination push under the
rollback-triggering configuration, the claim (and the code's own message
`Restoring both original tfstates in S3...`, line 251) says BOTH backups are
restored; the code instead pushes the SOURCE backup to the SOURCE module twice
(lines 252-254) and never pushes the destination backup anywhere — the claim
is the intent, the double push a slip. -/
theorem C2_dual_restore_not_attempted :
    (mainRun envC2).outcome = Outcome.rolledBackDual ∧
      (mainRun envC2).trace.count
        (Event.statePush envC2.srcModule (backup_name envC2.srcModule envC2.tsSrc)) = 2 ∧
      Event.statePush envC2.destModule (backup_name envC2.destModule envC2.tsDest)
        ∉ (mainRun envC2).trace := by decide
